import Mathlib

set_option maxHeartbeats 1000000
set_option maxRecDepth 100000
set_option autoImplicit false

/-!
Shallow embedding of the X-Road metrics agent (`agente-xroad-metrics.py`):
the operational-data response parser, the SOAP request builders, the local
SQLite persistence, the analytics query and the monitoring loop, together
with theorems settling the specification's claims against this embedding.

Modelling conventions:
* a wire timestamp is an exact epoch-millisecond integer; the source's
  float round trip through `datetime.fromtimestamp` and `total_seconds`
  is modelled exactly (the values involved are integral milliseconds);
* an XML element that `find` may fail to locate is an `Option String`
  holding its text; a Python exception caught by the source is a `none`
  result of an `Option`-valued function;
* SQLite semantics are modelled explicitly: `INSERT OR IGNORE` skips a row
  only on a uniqueness-constraint conflict, and the aggregates `SUM`,
  `AVG`, `MIN`, `MAX` ignore NULL operands and are NULL over an empty row
  set while `COUNT(*)` counts every row.
-/

/-- Whitespace stripped by Python's `int(s)` around the numeral. -/
def isPySpace (c : Char) : Bool :=
  c == ' ' || c == '\t' || c == '\n' || c == '\r'

/-- Strip leading and trailing whitespace from a character list. -/
def trimChars (cs : List Char) : List Char :=
  ((cs.dropWhile isPySpace).reverse.dropWhile isPySpace).reverse

/-- Value of a digit run, as Python's `int` computes it. -/
def charsToNat (cs : List Char) : Nat :=
  cs.foldl (fun n c => 10 * n + (c.toNat - 48)) 0

/-- Digit-run parse underlying `int(s)`; `none` models a raised `ValueError`. -/
def pyDigits (cs : List Char) : Option Nat :=
  if cs ≠ [] ∧ cs.all Char.isDigit then some (charsToNat cs) else none

/-- Python `int(s)` on the string forms the agent meets: optional surrounding
whitespace, an optional sign, then decimal digits; `none` models a raised
`ValueError` (caught by the per-record handler in the source). -/
def parseIntPy (s : String) : Option Int :=
  match trimChars s.data with
  | '-' :: rest => (pyDigits rest).map (fun n => -(n : Int))
  | '+' :: rest => (pyDigits rest).map (fun n => (n : Int))
  | cs => (pyDigits cs).map (fun n => (n : Int))

/-- ASCII lowering of one character, as Python's `str.lower` does on the
values the agent meets. -/
def pyLowerChar (c : Char) : Char :=
  if 'A' ≤ c ∧ c ≤ 'Z' then Char.ofNat (c.toNat + 32) else c

/-- Python `s.lower()`. -/
def pyLower (s : String) : String :=
  ⟨s.data.map pyLowerChar⟩

/-- The dataclass `XRoadOperationalData` (source lines 23-35); timestamps are
epoch milliseconds. -/
structure XRoadOperationalData where
  service_id : String
  client_id : String
  producer_id : String
  request_timestamp : Option Int
  response_timestamp : Option Int
  request_size : Int
  response_size : Int
  success : Bool
  error_message : Option String
  request_duration : Option Int
deriving Repr, DecidableEq

/-- One `operationalDataRecord` element: each field holds the text of the
corresponding child element when `record.find` locates it (source lines
200-210), `none` when the element is absent. -/
structure OperationalRecordElem where
  serviceXRoadRequestId : Option String
  clientXRoadRequestId : Option String
  requestInTs : Option String
  responseOutTs : Option String
  requestSize : Option String
  responseSize : Option String
  succeeded : Option String
  faultString : Option String
deriving Repr, DecidableEq

/-- Timestamp extraction (source lines 216-222): an absent element yields
`None`; a present element goes through `int(text)`, whose failure aborts the
record. The stored value is the epoch-millisecond integer. -/
def parseTsField : Option String → Option (Option Int)
  | none => some none
  | some t =>
    match parseIntPy t with
    | none => none
    | some n => some (some n)

/-- Size extraction (source lines 224-225): absent element defaults to `0`;
a present element goes through `int(text)`. -/
def parseSizeField : Option String → Option Int
  | none => some 0
  | some t => parseIntPy t

/-- Success extraction (source line 227): `text.lower() == 'true'` when the
element is present, `False` otherwise. -/
def parseSucceeded : Option String → Bool
  | none => false
  | some t => pyLower t == "true"

/-- Duration computation (source lines 230-233): present exactly when both
timestamps are, and equal to their signed millisecond difference. -/
def computeDuration : Option Int → Option Int → Option Int
  | some rq, some rs => some (rs - rq)
  | _, _ => none

/-- Per-record extraction (source lines 198-250): the body of the per-record
`try`; any field whose `int` conversion fails raises, the handler logs and
`continue`s, modelled by a `none` result. -/
def parseOperationalRecord (e : OperationalRecordElem) : Option XRoadOperationalData :=
  match parseTsField e.requestInTs, parseTsField e.responseOutTs,
        parseSizeField e.requestSize, parseSizeField e.responseSize with
  | some rq, some rs, some qs, some ps =>
    some
      { service_id := e.serviceXRoadRequestId.getD "Unknown"
        client_id := e.clientXRoadRequestId.getD "Unknown"
        producer_id := "Unknown"
        request_timestamp := rq
        response_timestamp := rs
        request_size := qs
        response_size := ps
        success := parseSucceeded e.succeeded
        error_message := e.faultString
        request_duration := computeDuration rq rs }
  | _, _, _, _ => none

/-- The outcome of `ET.fromstring` on the response body: `malformed` models a
raised parse error (caught at document level, source lines 252-254), while
`wellFormed` carries the located `operationalDataRecord` elements. -/
inductive OperationalResponseDoc where
  | malformed : OperationalResponseDoc
  | wellFormed : List OperationalRecordElem → OperationalResponseDoc
deriving Repr, DecidableEq

/-- `_parse_operational_data_response` (source lines 183-255): a malformed
document yields the initial empty list; otherwise each record element is
parsed and failing records are skipped. -/
def parse_operational_data_response : OperationalResponseDoc → List XRoadOperationalData
  | .malformed => []
  | .wellFormed records => records.filterMap parseOperationalRecord

/-- A row of the `operational_data` table (source lines 362-377): the ten
inserted columns plus the `AUTOINCREMENT` primary key `id`. -/
structure OperationalRow where
  id : Nat
  service_id : String
  client_id : String
  producer_id : String
  request_timestamp : Option Int
  response_timestamp : Option Int
  request_size : Int
  response_size : Int
  success : Bool
  error_message : Option String
  request_duration : Option Int
deriving Repr, DecidableEq

/-- The local `operational_data` table with its autoincrement counter. -/
structure OperationalTable where
  rows : List OperationalRow
  next_id : Nat
deriving Repr, DecidableEq

def emptyOperationalTable : OperationalTable := { rows := [], next_id := 1 }

def rowOfData (i : Nat) (d : XRoadOperationalData) : OperationalRow :=
  { id := i
    service_id := d.service_id
    client_id := d.client_id
    producer_id := d.producer_id
    request_timestamp := d.request_timestamp
    response_timestamp := d.response_timestamp
    request_size := d.request_size
    response_size := d.response_size
    success := d.success
    error_message := d.error_message
    request_duration := d.request_duration }

/-- One `INSERT OR IGNORE` into `operational_data` (source lines 439-449).
`OR IGNORE` suppresses the insert only when a uniqueness constraint is
violated; the schema (source lines 362-377) declares no UNIQUE column other
than the `AUTOINCREMENT` primary key, so the only conflict that could fire is
on the freshly generated `id`. -/
def insert_or_ignore_operational (t : OperationalTable) (d : XRoadOperationalData) : OperationalTable :=
  if t.rows.any (fun r => r.id == t.next_id) then t
  else { rows := t.rows ++ [rowOfData t.next_id d], next_id := t.next_id + 1 }

/-- `_store_operational_data` (source lines 433-452): one insert per record. -/
def store_operational_data (t : OperationalTable) (ds : List XRoadOperationalData) : OperationalTable :=
  ds.foldl insert_or_ignore_operational t

/-- Outcome of one body of the monitoring loop (source lines 525-541):
`ok` when both collections and the inter-cycle sleep complete, `failure` for
any other raised exception, `cancelled` for `KeyboardInterrupt`. -/
inductive CycleOutcome where
  | ok : CycleOutcome
  | failure : CycleOutcome
  | cancelled : CycleOutcome
deriving Repr, DecidableEq

inductive LoopState where
  | running : LoopState
  | stopped : LoopState
deriving Repr, DecidableEq

/-- One turn of `start_monitoring_loop`'s `while True` (source lines 525-541):
a clean cycle sleeps `interval_minutes * 60` seconds and continues; any caught
exception sleeps a fixed 60 seconds and continues; `KeyboardInterrupt`
`break`s. The second component is the pause in seconds before the next
attempt. -/
def loopStep (interval_minutes : Nat) : CycleOutcome → LoopState × Nat
  | .ok => (.running, interval_minutes * 60)
  | .failure => (.running, 60)
  | .cancelled => (.stopped, 0)

/-- The monitoring loop run against a finite trace of cycle outcomes: it
keeps iterating until an outcome stops it (source lines 521-541). -/
def runLoop (interval_minutes : Nat) : List CycleOutcome → LoopState
  | [] => .running
  | o :: rest =>
    match (loopStep interval_minutes o).1 with
    | .stopped => .stopped
    | .running => runLoop interval_minutes rest

/-- Split a character list at every occurrence of `sep`; always returns at
least one (possibly empty) segment, like Python's `str.split` with an
explicit separator. -/
def splitChars (sep : Char) : List Char → List (List Char)
  | [] => [[]]
  | c :: cs =>
    let rest := splitChars sep cs
    if c = sep then [] :: rest
    else (c :: rest.headD []) :: rest.tail

/-- Python `s.split(sep)` for a one-character separator, as used on the
compact slash-delimited identifiers. -/
def pySplit (s : String) (sep : Char) : List String :=
  (splitChars sep s.data).map (fun cs => ⟨cs⟩)

/-- The member-class/member-code extraction the request builders perform on a
compact identifier: `s.split('/')[1]` and `s.split('/')[2]` (source lines
117-118, 131-132, 166-167); `none` models the `IndexError` raised when the
index is out of range. -/
def parseCompactClassCode (s : String) : Option (String × String) :=
  match (pySplit s '/').get? 1, (pySplit s '/').get? 2 with
  | some cls, some code => some (cls, code)
  | _, _ => none

/-- Running state of the SQLite aggregates computed by the per-service query
of `get_service_analytics` (source lines 489-501): `COUNT(*)`, the two
`SUM(CASE ...)` counters, and sum/count/min/max accumulators for the
NULL-ignoring `AVG`, `MIN`, `MAX`. A `none` accumulator is SQL NULL, the
value each aggregate other than `COUNT` has before its first non-NULL
operand. -/
structure AggState where
  cnt : Nat
  sum_succ : Option Int
  sum_fail : Option Int
  sum_dur : Option Int
  cnt_dur : Nat
  min_dur : Option Int
  max_dur : Option Int
  sum_qsize : Option Int
  sum_psize : Option Int
deriving Repr, DecidableEq

def aggInit : AggState :=
  { cnt := 0, sum_succ := none, sum_fail := none, sum_dur := none,
    cnt_dur := 0, min_dur := none, max_dur := none,
    sum_qsize := none, sum_psize := none }

/-- SQL `SUM` step on a non-NULL operand. -/
def sqlSumAcc (acc : Option Int) (v : Int) : Option Int :=
  some (acc.getD 0 + v)

/-- SQL `MIN` step on a non-NULL operand. -/
def sqlMinAcc (acc : Option Int) (v : Int) : Option Int :=
  match acc with
  | none => some v
  | some m => some (min m v)

/-- SQL `MAX` step on a non-NULL operand. -/
def sqlMaxAcc (acc : Option Int) (v : Int) : Option Int :=
  match acc with
  | none => some v
  | some m => some (max m v)

/-- One row's contribution to the aggregates of the per-service analytics
query: `success` is stored as 0/1 so exactly one `CASE` arm contributes 1;
a NULL `request_duration` is skipped by `AVG`/`MIN`/`MAX`; the sizes are
always stored non-NULL by the parser. -/
def aggStep (st : AggState) (r : OperationalRow) : AggState :=
  let st1 : AggState :=
    { cnt := st.cnt + 1
      sum_succ := sqlSumAcc st.sum_succ (if r.success then 1 else 0)
      sum_fail := sqlSumAcc st.sum_fail (if r.success then 0 else 1)
      sum_dur := st.sum_dur
      cnt_dur := st.cnt_dur
      min_dur := st.min_dur
      max_dur := st.max_dur
      sum_qsize := sqlSumAcc st.sum_qsize r.request_size
      sum_psize := sqlSumAcc st.sum_psize r.response_size }
  match r.request_duration with
  | none => st1
  | some d =>
    { st1 with
      sum_dur := sqlSumAcc st1.sum_dur d
      cnt_dur := st1.cnt_dur + 1
      min_dur := sqlMinAcc st1.min_dur d
      max_dur := sqlMaxAcc st1.max_dur d }

/-- The single result row of the per-service analytics query (source lines
489-501), in column order. `AVG` results are rationals (SQLite computes a
float quotient); a `none` is SQL NULL. -/
structure Summary where
  total_requests : Nat
  successful_requests : Option Int
  failed_requests : Option Int
  avg_duration : Option ℚ
  min_duration : Option Int
  max_duration : Option Int
  avg_request_size : Option ℚ
  avg_response_size : Option ℚ
deriving Repr, DecidableEq

/-- Turn the accumulated aggregate state into the result row: `AVG` divides
the NULL-ignoring sum by the count of its non-NULL operands (for the sizes,
stored non-NULL, that count is `COUNT(*)`). -/
def finalizeAgg (st : AggState) : Summary :=
  { total_requests := st.cnt
    successful_requests := st.sum_succ
    failed_requests := st.sum_fail
    avg_duration := st.sum_dur.map (fun s => (s : ℚ) / (st.cnt_dur : ℚ))
    min_duration := st.min_dur
    max_duration := st.max_dur
    avg_request_size := st.sum_qsize.map (fun s => (s : ℚ) / (st.cnt : ℚ))
    avg_response_size := st.sum_psize.map (fun s => (s : ℚ) / (st.cnt : ℚ)) }

/-- The query's `WHERE service_id = ? AND request_timestamp > ?` (source line
500): a NULL `request_timestamp` fails the comparison and the row is outside
the window. -/
def inWindow (service_id : String) (since : Int) (r : OperationalRow) : Bool :=
  r.service_id == service_id &&
    (match r.request_timestamp with
     | some t => decide (since < t)
     | none => false)

/-- `get_service_analytics` with a `service_id` (source lines 481-519,
first branch): filter the stored rows to the window, then evaluate the
SQL aggregates over them. -/
def get_service_analytics (rows : List OperationalRow) (service_id : String) (since : Int) : Summary :=
  finalizeAgg ((rows.filter (inWindow service_id since)).foldl aggStep aggInit)

/-- Structural minimum of a list of integers, the specification the SQL
`MIN` accumulator is checked against. -/
def listMinO : List Int → Option Int
  | [] => none
  | a :: l =>
    match listMinO l with
    | none => some a
    | some m => some (min a m)

/-- Structural maximum of a list of integers, the specification the SQL
`MAX` accumulator is checked against. -/
def listMaxO : List Int → Option Int
  | [] => none
  | a :: l =>
    match listMaxO l with
    | none => some a
    | some m => some (max a m)

/-- Combine an accumulated SQL `MIN` state with the minimum of a further
batch of operands. -/
def mergeMin : Option Int → Option Int → Option Int
  | none, y => y
  | some m, none => some m
  | some m, some k => some (min m k)

/-- Combine an accumulated SQL `MAX` state with the maximum of a further
batch of operands. -/
def mergeMax : Option Int → Option Int → Option Int
  | none, y => y
  | some m, none => some m
  | some m, some k => some (max m k)

/-- The configuration keys `XRoadMetricsClient` reads when building requests:
`client_id` (source line 43) and the optional `xroad_instance`
(`config.get('xroad_instance', 'DEV')`, source lines 116, 130, 135, 165,
170). -/
structure MetricsConfig where
  client_id : String
  xroad_instance : Option String
deriving Repr, DecidableEq

def instOf (cfg : MetricsConfig) : String :=
  cfg.xroad_instance.getD "DEV"

/-- The `client_filter_xml` fragment (source lines 112-120): empty for a
missing or falsy (empty-string) filter, otherwise an `<m:client>` clause
built from segments 1 and 2 of the filter; `none` models the `IndexError`
when the filter has fewer than three slash segments. -/
def client_filter_xml (cfg : MetricsConfig) (client_filter : Option String) : Option String :=
  match client_filter with
  | none => some ""
  | some cf =>
    if cf == "" then some ""
    else
      match parseCompactClassCode cf with
      | none => none
      | some (cls, code) =>
        some ("\n            <m:client>\n                <id:xRoadInstance>"
          ++ instOf cfg
          ++ "</id:xRoadInstance>\n                <id:memberClass>"
          ++ cls
          ++ "</id:memberClass>\n                <id:memberCode>"
          ++ code
          ++ "</id:memberCode>\n            </m:client>\n            ")

/-- Shared SOAP header of both requests up to the correlation id (source
lines 122-140 and 157-175): envelope opening, requester client block built
from `client_id.split('/')[1]` and `[2]`, fixed monitoring-service block,
and the opening `<xrd:id>` tag. -/
def soapHeaderHead (cfg : MetricsConfig) (cls code serviceCode : String) : String :=
  "<?xml version=\"1.0\" encoding=\"UTF-8\"?>\n<SOAP-ENV:Envelope \n    xmlns:SOAP-ENV=\"http://schemas.xmlsoap.org/soap/envelope/\" \n    xmlns:id=\"http://x-road.eu/xsd/identifiers\" \n    xmlns:m=\"http://x-road.eu/xsd/monitoring\" \n    xmlns:xrd=\"http://x-road.eu/xsd/xroad.xsd\">\n    <SOAP-ENV:Header>\n        <xrd:client id:objectType=\"MEMBER\">\n            <id:xRoadInstance>"
    ++ instOf cfg
    ++ "</id:xRoadInstance>\n            <id:memberClass>"
    ++ cls
    ++ "</id:memberClass>\n            <id:memberCode>"
    ++ code
    ++ "</id:memberCode>\n        </xrd:client>\n        <xrd:service id:objectType=\"SERVICE\">\n            <id:xRoadInstance>"
    ++ instOf cfg
    ++ "</id:xRoadInstance>\n            <id:memberClass>GOV</id:memberClass>\n            <id:memberCode>MONITORING</id:memberCode>\n            <id:serviceCode>"
    ++ serviceCode
    ++ "</id:serviceCode>\n        </xrd:service>\n        <xrd:id>"

/-- `_build_operational_data_request` (source lines 104-152). The epoch
seconds `from_ts`/`to_ts` are the already-truncated `int(....timestamp())`
values; `now` is the `datetime.now().strftime('%Y%m%d%H%M%S')` correlation
id, an input read from the clock at invocation time; `none` models the
`IndexError` on an identifier with fewer than three slash segments. -/
def build_operational_data_request (cfg : MetricsConfig) (from_ts to_ts : Int)
    (client_filter : Option String) (now : String) : Option String :=
  match client_filter_xml cfg client_filter, parseCompactClassCode cfg.client_id with
  | some fxml, some (cls, code) =>
    some (soapHeaderHead cfg cls code "getSecurityServerOperationalData"
      ++ now
      ++ ("</xrd:id>\n        <xrd:protocolVersion>4.0</xrd:protocolVersion>\n    </SOAP-ENV:Header>\n    <SOAP-ENV:Body>\n        <m:getSecurityServerOperationalData>\n            <m:searchCriteria>\n                <m:recordsFrom>"
        ++ toString from_ts
        ++ "</m:recordsFrom>\n                <m:recordsTo>"
        ++ toString to_ts
        ++ "</m:recordsTo>\n                "
        ++ fxml
        ++ "\n            </m:searchCriteria>\n        </m:getSecurityServerOperationalData>\n    </SOAP-ENV:Body>\n</SOAP-ENV:Envelope>"))
  | _, _ => none

/-- `_build_health_data_request` (source lines 154-181): same envelope with
the health service code and an empty body element; the `server_id` parameter
is accepted but never used by the source. -/
def build_health_data_request (cfg : MetricsConfig) (server_id : Option String)
    (now : String) : Option String :=
  match parseCompactClassCode cfg.client_id with
  | some (cls, code) =>
    some (soapHeaderHead cfg cls code "getSecurityServerHealthData"
      ++ now
      ++ "</xrd:id>\n        <xrd:protocolVersion>4.0</xrd:protocolVersion>\n    </SOAP-ENV:Header>\n    <SOAP-ENV:Body>\n        <m:getSecurityServerHealthData/>\n    </SOAP-ENV:Body>\n</SOAP-ENV:Envelope>")
  | none => none

/-- The `lastPeriodStatistics` element of a `serviceEvents` block (source
lines 295-311); wire numerals are modelled as their parsed values. -/
structure LastPeriodStatsElem where
  successfulRequestCount : Option Int
  unsuccessfulRequestCount : Option Int
  requestMinDuration : Option ℚ
deriving Repr, DecidableEq

/-- One `serviceEvents` element of the health response (source lines
279-313). -/
structure ServiceEventElem where
  serviceCode : Option String
  lastSuccessfulRequestTimestamp : Option Int
  lastUnsuccessfulRequestTimestamp : Option Int
  lastPeriodStatistics : Option LastPeriodStatsElem
deriving Repr, DecidableEq

/-- The per-service statistics dictionary the health parser builds (source
lines 296-311): each key is set only when its element is present, and
`avgDuration` is read from the `requestMinDuration` element. -/
structure ServiceStats where
  successfulRequestCount : Option Int
  unsuccessfulRequestCount : Option Int
  avgDuration : Option ℚ
deriving Repr, DecidableEq

/-- The per-service dictionary of `_parse_health_data_response` (source
lines 279-313). -/
structure ServiceData where
  serviceCode : Option String
  lastSuccessfulRequestTimestamp : Option Int
  lastUnsuccessfulRequestTimestamp : Option Int
  lastPeriodStatistics : Option ServiceStats
deriving Repr, DecidableEq

/-- Extraction of one service's health data (source lines 279-313). -/
def parse_service_event (e : ServiceEventElem) : ServiceData :=
  { serviceCode := e.serviceCode
    lastSuccessfulRequestTimestamp := e.lastSuccessfulRequestTimestamp
    lastUnsuccessfulRequestTimestamp := e.lastUnsuccessfulRequestTimestamp
    lastPeriodStatistics := e.lastPeriodStatistics.map (fun s =>
      { successfulRequestCount := s.successfulRequestCount
        unsuccessfulRequestCount := s.unsuccessfulRequestCount
        avgDuration := s.requestMinDuration }) }

/-- A row of the `health_data` table (source lines 380-391), restricted to
the six inserted columns; timestamps are epoch milliseconds. -/
structure HealthRow where
  service_code : Option String
  last_successful_request : Option Int
  last_unsuccessful_request : Option Int
  successful_count : Int
  unsuccessful_count : Int
  avg_duration : ℚ
deriving Repr, DecidableEq

/-- The row `_store_health_data` inserts for one service (source lines
459-476): the timestamps pass through Python truthiness (a 0 timestamp is
falsy and stored as NULL), the counts default to 0, and `avg_duration`
defaults to 0.0 via `stats.get('avgDuration', 0.0)` where `stats` is `{}`
when `lastPeriodStatistics` is absent. -/
def store_health_service (s : ServiceData) : HealthRow :=
  let stats := s.lastPeriodStatistics.getD
    { successfulRequestCount := none, unsuccessfulRequestCount := none, avgDuration := none }
  { service_code := s.serviceCode
    last_successful_request :=
      match s.lastSuccessfulRequestTimestamp with
      | some t => if t ≠ 0 then some t else none
      | none => none
    last_unsuccessful_request :=
      match s.lastUnsuccessfulRequestTimestamp with
      | some t => if t ≠ 0 then some t else none
      | none => none
    successful_count := stats.successfulRequestCount.getD 0
    unsuccessful_count := stats.unsuccessfulRequestCount.getD 0
    avg_duration := stats.avgDuration.getD 0 }

/-- `_store_health_data` over a list of services (source lines 454-479):
plain `INSERT`, one appended row per service, never deduplicated. -/
def store_health_data (rows : List HealthRow) (services : List ServiceData) : List HealthRow :=
  rows ++ services.map store_health_service

/-! ## Helper lemmas -/

/-- Inversion for a successful per-record parse: each field parse succeeded
and the record is exactly the one the source appends. -/
theorem parseOperationalRecord_shape (e : OperationalRecordElem) (d : XRoadOperationalData)
    (h : parseOperationalRecord e = some d) :
    ∃ rq rs qs ps, parseTsField e.requestInTs = some rq ∧ parseTsField e.responseOutTs = some rs ∧
      parseSizeField e.requestSize = some qs ∧ parseSizeField e.responseSize = some ps ∧
      d = { service_id := e.serviceXRoadRequestId.getD "Unknown"
            client_id := e.clientXRoadRequestId.getD "Unknown"
            producer_id := "Unknown"
            request_timestamp := rq
            response_timestamp := rs
            request_size := qs
            response_size := ps
            success := parseSucceeded e.succeeded
            error_message := e.faultString
            request_duration := computeDuration rq rs } := by
  unfold parseOperationalRecord at h
  rcases h1 : parseTsField e.requestInTs with _ | rq <;>
    rcases h2 : parseTsField e.responseOutTs with _ | rs <;>
      rcases h3 : parseSizeField e.requestSize with _ | qs <;>
        rcases h4 : parseSizeField e.responseSize with _ | ps <;>
          rw [h1, h2, h3, h4] at h <;> simp only [Option.some.injEq, reduceCtorEq] at h
  exact ⟨rq, rs, qs, ps, rfl, rfl, rfl, rfl, h.symm⟩

theorem computeDuration_isSome (a b : Option Int) :
    (computeDuration a b).isSome ↔ (a.isSome ∧ b.isSome) := by
  cases a <;> cases b <;> simp [computeDuration]

/-! ## Claim theorems -/

/-- C5: an input that is not a well-formed structured document makes
`parse_operational_data_response` return the empty sequence; being a total
Lean function it raises nothing past its caller. -/
theorem malformed_document_yields_empty :
    parse_operational_data_response .malformed = [] := rfl

/-- C10: every operational record the parser returns has `producer_id` equal
to the constant `"Unknown"`, whatever the document contains — the producer
identifier is never read from the wire. -/
theorem producer_id_always_unknown :
    ∀ (doc : OperationalResponseDoc) (d : XRoadOperationalData),
      d ∈ parse_operational_data_response doc → d.producer_id = "Unknown" := by
  intro doc d h
  cases doc with
  | malformed => simp [parse_operational_data_response] at h
  | wellFormed l =>
    simp only [parse_operational_data_response, List.mem_filterMap] at h
    obtain ⟨e, _, he⟩ := h
    obtain ⟨rq, rs, qs, ps, _, _, _, _, hd⟩ := parseOperationalRecord_shape e d he
    rw [hd]

/-- Witness for C10 at a concrete document with one fully-defaulted record. -/
theorem producer_id_always_unknown_witness :
    (⟨"Unknown", "Unknown", "Unknown", none, none, 0, 0, false, none, none⟩ :
        XRoadOperationalData).producer_id = "Unknown" :=
  producer_id_always_unknown
    (.wellFormed [⟨none, none, none, none, none, none, none, none⟩])
    ⟨"Unknown", "Unknown", "Unknown", none, none, 0, 0, false, none, none⟩
    (by decide)

/-- C2 (amended): in every record the parser produces, `durationMs` is
present iff both timestamps are present, and when present it equals the
signed difference `responseTimestamp - requestTimestamp` in milliseconds —
the source does not clamp it to be nonnegative and still emits the record;
for requestTimestamp T = 1000000 ms and responseTimestamp T + 250 ms the
result is 250. -/
theorem duration_present_iff_both_timestamps :
    (∀ (e : OperationalRecordElem) (d : XRoadOperationalData),
      parseOperationalRecord e = some d →
        ((d.request_duration.isSome ↔ (d.request_timestamp.isSome ∧ d.response_timestamp.isSome)) ∧
         (∀ a b : Int, d.request_timestamp = some a → d.response_timestamp = some b →
           d.request_duration = some (b - a)))) ∧
    (parseOperationalRecord ⟨none, none, some "1000000", some "1000250", none, none, none, none⟩).map
        (fun d => d.request_duration) = some (some 250) := by
  constructor
  · intro e d h
    obtain ⟨rq, rs, qs, ps, h1, h2, h3, h4, hd⟩ := parseOperationalRecord_shape e d h
    subst hd
    constructor
    · exact computeDuration_isSome rq rs
    · intro a b ha hb
      simp only at ha hb
      subst ha
      subst hb
      rfl
  · decide

/-- Witness for C2 at the `T`, `T + 250 ms` record. -/
theorem duration_present_iff_both_timestamps_witness :
    (⟨"Unknown", "Unknown", "Unknown", some 1000000, some 1000250, 0, 0, false, none, some 250⟩ :
        XRoadOperationalData).request_duration = some (1000250 - 1000000) :=
  (duration_present_iff_both_timestamps.1
      ⟨none, none, some "1000000", some "1000250", none, none, none, none⟩
      ⟨"Unknown", "Unknown", "Unknown", some 1000000, some 1000250, 0, 0, false, none, some 250⟩
      (by decide)).2 1000000 1000250 rfl rfl

/-- Counterexample to C2 as stated: a record whose response timestamp
precedes its request timestamp is parsed to a record carrying the negative
duration -1000 — nothing clamps it to zero and the record is produced (and
so stored), not reported as malformed. -/
theorem negative_duration_record_is_produced :
    (parse_operational_data_response (.wellFormed
        [⟨none, none, some "1000", some "0", none, none, none, none⟩])).map
      (fun d => d.request_duration) = [some (-1000)] := by
  decide

/-- C4: a malformed record is skipped without discarding the batch; within a
record each absent optional element is independently defaulted (`"Unknown"`
identifiers, `0` sizes, `false` success, `null` timestamps and error text);
a document with one well-formed and one all-absent record yields exactly the
fully-populated record followed by the fully-defaulted one. -/
theorem record_failures_isolated_and_fields_defaulted :
    (∀ (e : OperationalRecordElem) (rest : List OperationalRecordElem),
      parseOperationalRecord e = none →
        parse_operational_data_response (.wellFormed (e :: rest)) =
          parse_operational_data_response (.wellFormed rest)) ∧
    (∀ (e : OperationalRecordElem) (d : XRoadOperationalData),
      parseOperationalRecord e = some d →
        (e.serviceXRoadRequestId = none → d.service_id = "Unknown") ∧
        (e.clientXRoadRequestId = none → d.client_id = "Unknown") ∧
        (e.requestSize = none → d.request_size = 0) ∧
        (e.responseSize = none → d.response_size = 0) ∧
        (e.succeeded = none → d.success = false) ∧
        (e.requestInTs = none → d.request_timestamp = none) ∧
        (e.responseOutTs = none → d.response_timestamp = none) ∧
        (e.faultString = none → d.error_message = none)) ∧
    parse_operational_data_response (.wellFormed
        [⟨some "svc", some "cli", some "1000", some "1250", some "10", some "20", some "True", some "err"⟩,
         ⟨none, none, none, none, none, none, none, none⟩]) =
      [⟨"svc", "cli", "Unknown", some 1000, some 1250, 10, 20, true, some "err", some 250⟩,
       ⟨"Unknown", "Unknown", "Unknown", none, none, 0, 0, false, none, none⟩] := by
  refine ⟨?_, ?_, by decide⟩
  · intro e rest h
    simp [parse_operational_data_response, List.filterMap_cons, h]
  · intro e d h
    obtain ⟨rq, rs, qs, ps, h1, h2, h3, h4, hd⟩ := parseOperationalRecord_shape e d h
    subst hd
    refine ⟨?_, ?_, ?_, ?_, ?_, ?_, ?_, ?_⟩ <;> intro hnone
    · simp [hnone]
    · simp [hnone]
    · rw [hnone] at h3
      simp [parseSizeField] at h3
      simp [h3.symm]
    · rw [hnone] at h4
      simp [parseSizeField] at h4
      simp [h4.symm]
    · simp [hnone, parseSucceeded]
    · rw [hnone] at h1
      simp [parseTsField] at h1
      simp [h1.symm]
    · rw [hnone] at h2
      simp [parseTsField] at h2
      simp [h2.symm]
    · simp [hnone]

/-- Witness for C4: a record whose `requestSize` text is not numeric is
skipped, and an all-absent record gets the defaulted service id. -/
theorem record_failures_isolated_and_fields_defaulted_witness :
    parse_operational_data_response (.wellFormed [⟨none, none, some "x", none, none, none, none, none⟩]) =
      parse_operational_data_response (.wellFormed []) ∧
    (⟨"Unknown", "Unknown", "Unknown", none, none, 0, 0, false, none, none⟩ :
        XRoadOperationalData).service_id = "Unknown" :=
  ⟨record_failures_isolated_and_fields_defaulted.1
      ⟨none, none, some "x", none, none, none, none, none⟩ [] (by decide),
   (record_failures_isolated_and_fields_defaulted.2.1
      ⟨none, none, none, none, none, none, none, none⟩
      ⟨"Unknown", "Unknown", "Unknown", none, none, 0, 0, false, none, none⟩
      (by decide)).1 rfl⟩

/-- C3: run against any finite trace of cycle outcomes, the monitoring loop
reaches its stopped state exactly when some outcome is the explicit
cancellation (`KeyboardInterrupt`); a failing cycle never stops it, and the
pause after a failure is the fixed 60 seconds before the next attempt. -/
theorem loop_stops_only_on_cancellation :
    ∀ (interval : Nat) (outcomes : List CycleOutcome),
      (runLoop interval outcomes = .stopped ↔ CycleOutcome.cancelled ∈ outcomes) ∧
      loopStep interval .failure = (.running, 60) := by
  intro interval outcomes
  refine ⟨?_, rfl⟩
  induction outcomes with
  | nil => simp [runLoop]
  | cons o rest ih => cases o <;> simp [runLoop, loopStep, ih]

/-- C1: evaluating the store at the failing input — appending the same
single record twice starting from the empty table. The schema's only
uniqueness constraint is the autoincrement primary key, so `INSERT OR
IGNORE` never finds a conflict: the second append inserts a second row with
the same natural key (service, client, request timestamp) instead of being
skipped. -/
theorem store_operational_data_inserts_duplicates :
    ((store_operational_data (store_operational_data emptyOperationalTable
        [⟨"S", "C", "Unknown", some 0, some 250, 10, 20, true, none, some 250⟩])
        [⟨"S", "C", "Unknown", some 0, some 250, 10, 20, true, none, some 250⟩]).rows.map
      (fun r => (r.service_id, r.client_id, r.request_timestamp)) =
        [("S", "C", some 0), ("S", "C", some 0)]) ∧
    (store_operational_data emptyOperationalTable
        [⟨"S", "C", "Unknown", some 0, some 250, 10, 20, true, none, some 250⟩]).rows.length = 1 := by
  decide

/-! ## Aggregate-fold lemmas for the analytics query -/

theorem aggStep_cnt (st : AggState) (r : OperationalRow) :
    (aggStep st r).cnt = st.cnt + 1 := by
  rcases hd : r.request_duration with _ | d <;> simp [aggStep, hd]

theorem aggStep_sum_succ (st : AggState) (r : OperationalRow) :
    (aggStep st r).sum_succ = sqlSumAcc st.sum_succ (if r.success then 1 else 0) := by
  rcases hd : r.request_duration with _ | d <;> simp [aggStep, hd]

theorem aggStep_sum_fail (st : AggState) (r : OperationalRow) :
    (aggStep st r).sum_fail = sqlSumAcc st.sum_fail (if r.success then 0 else 1) := by
  rcases hd : r.request_duration with _ | d <;> simp [aggStep, hd]

theorem aggStep_sum_qsize (st : AggState) (r : OperationalRow) :
    (aggStep st r).sum_qsize = sqlSumAcc st.sum_qsize r.request_size := by
  rcases hd : r.request_duration with _ | d <;> simp [aggStep, hd]

theorem aggStep_sum_psize (st : AggState) (r : OperationalRow) :
    (aggStep st r).sum_psize = sqlSumAcc st.sum_psize r.response_size := by
  rcases hd : r.request_duration with _ | d <;> simp [aggStep, hd]

theorem aggStep_dur_none (st : AggState) (r : OperationalRow) (h : r.request_duration = none) :
    (aggStep st r).sum_dur = st.sum_dur ∧ (aggStep st r).cnt_dur = st.cnt_dur ∧
    (aggStep st r).min_dur = st.min_dur ∧ (aggStep st r).max_dur = st.max_dur := by
  simp [aggStep, h]

theorem aggStep_dur_some (st : AggState) (r : OperationalRow) (d : Int)
    (h : r.request_duration = some d) :
    (aggStep st r).sum_dur = sqlSumAcc st.sum_dur d ∧
    (aggStep st r).cnt_dur = st.cnt_dur + 1 ∧
    (aggStep st r).min_dur = sqlMinAcc st.min_dur d ∧
    (aggStep st r).max_dur = sqlMaxAcc st.max_dur d := by
  simp [aggStep, h]

theorem foldl_agg_cnt (l : List OperationalRow) :
    ∀ st : AggState, (l.foldl aggStep st).cnt = st.cnt + l.length := by
  induction l with
  | nil => intro st; simp
  | cons r l ih =>
    intro st
    rw [List.foldl_cons, ih, aggStep_cnt]
    simp only [List.length_cons]
    omega

theorem foldl_agg_sum_succ (l : List OperationalRow) :
    ∀ st : AggState, (l.foldl aggStep st).sum_succ =
      if l.isEmpty then st.sum_succ
      else some (st.sum_succ.getD 0 + (((l.filter (fun r => r.success)).length : Int))) := by
  induction l with
  | nil => intro st; simp
  | cons r l ih =>
    intro st
    rw [List.foldl_cons, ih, aggStep_sum_succ]
    rcases l with _ | ⟨a, l2⟩
    · by_cases hr : r.success <;> simp [hr, sqlSumAcc, List.filter_cons]
    · by_cases hr : r.success <;>
        simp [hr, sqlSumAcc, List.filter_cons] <;> omega

theorem foldl_agg_sum_fail (l : List OperationalRow) :
    ∀ st : AggState, (l.foldl aggStep st).sum_fail =
      if l.isEmpty then st.sum_fail
      else some (st.sum_fail.getD 0 + (((l.filter (fun r => !r.success)).length : Int))) := by
  induction l with
  | nil => intro st; simp
  | cons r l ih =>
    intro st
    rw [List.foldl_cons, ih, aggStep_sum_fail]
    rcases l with _ | ⟨a, l2⟩
    · by_cases hr : r.success <;> simp [hr, sqlSumAcc, List.filter_cons]
    · by_cases hr : r.success <;>
        simp [hr, sqlSumAcc, List.filter_cons] <;> omega

theorem foldl_agg_sum_qsize (l : List OperationalRow) :
    ∀ st : AggState, (l.foldl aggStep st).sum_qsize =
      if l.isEmpty then st.sum_qsize
      else some (st.sum_qsize.getD 0 + (l.map (fun r => r.request_size)).sum) := by
  induction l with
  | nil => intro st; simp
  | cons r l ih =>
    intro st
    rw [List.foldl_cons, ih, aggStep_sum_qsize]
    rcases l with _ | ⟨a, l2⟩
    · simp [sqlSumAcc]
    · simp [sqlSumAcc]
      ring

theorem foldl_agg_sum_psize (l : List OperationalRow) :
    ∀ st : AggState, (l.foldl aggStep st).sum_psize =
      if l.isEmpty then st.sum_psize
      else some (st.sum_psize.getD 0 + (l.map (fun r => r.response_size)).sum) := by
  induction l with
  | nil => intro st; simp
  | cons r l ih =>
    intro st
    rw [List.foldl_cons, ih, aggStep_sum_psize]
    rcases l with _ | ⟨a, l2⟩
    · simp [sqlSumAcc]
    · simp [sqlSumAcc]
      ring

theorem foldl_agg_sum_dur (l : List OperationalRow) :
    ∀ st : AggState, (l.foldl aggStep st).sum_dur =
      if (l.filterMap (fun r => r.request_duration)).isEmpty then st.sum_dur
      else some (st.sum_dur.getD 0 + (l.filterMap (fun r => r.request_duration)).sum) := by
  induction l with
  | nil => intro st; simp
  | cons r l ih =>
    intro st
    rw [List.foldl_cons, ih]
    rcases hd : r.request_duration with _ | d
    · rw [(aggStep_dur_none st r hd).1]
      simp [List.filterMap_cons, hd]
    · rw [(aggStep_dur_some st r d hd).1]
      simp only [List.filterMap_cons, hd]
      rcases hrest : l.filterMap (fun r => r.request_duration) with _ | ⟨x, xs⟩ <;>
        simp [sqlSumAcc, hrest] <;> omega

theorem foldl_agg_cnt_dur (l : List OperationalRow) :
    ∀ st : AggState, (l.foldl aggStep st).cnt_dur =
      st.cnt_dur + (l.filterMap (fun r => r.request_duration)).length := by
  induction l with
  | nil => intro st; simp
  | cons r l ih =>
    intro st
    rw [List.foldl_cons, ih]
    rcases hd : r.request_duration with _ | d
    · rw [(aggStep_dur_none st r hd).2.1]
      simp [List.filterMap_cons, hd]
    · rw [(aggStep_dur_some st r d hd).2.1]
      simp [List.filterMap_cons, hd]
      omega

theorem foldl_agg_min_dur (l : List OperationalRow) :
    ∀ st : AggState, (l.foldl aggStep st).min_dur =
      mergeMin st.min_dur (listMinO (l.filterMap (fun r => r.request_duration))) := by
  induction l with
  | nil =>
    intro st
    rcases hst : st.min_dur with _ | m <;> simp [hst, listMinO, mergeMin]
  | cons r l ih =>
    intro st
    rw [List.foldl_cons, ih]
    rcases hd : r.request_duration with _ | d
    · rw [(aggStep_dur_none st r hd).2.2.1]
      simp [List.filterMap_cons, hd]
    · rw [(aggStep_dur_some st r d hd).2.2.1]
      simp only [List.filterMap_cons, hd]
      rcases hm : listMinO (l.filterMap (fun r => r.request_duration)) with _ | m <;>
        rcases hst : st.min_dur with _ | m0 <;>
          simp [listMinO, mergeMin, sqlMinAcc, hm, hst, min_assoc]

theorem foldl_agg_max_dur (l : List OperationalRow) :
    ∀ st : AggState, (l.foldl aggStep st).max_dur =
      mergeMax st.max_dur (listMaxO (l.filterMap (fun r => r.request_duration))) := by
  induction l with
  | nil =>
    intro st
    rcases hst : st.max_dur with _ | m <;> simp [hst, listMaxO, mergeMax]
  | cons r l ih =>
    intro st
    rw [List.foldl_cons, ih]
    rcases hd : r.request_duration with _ | d
    · rw [(aggStep_dur_none st r hd).2.2.2]
      simp [List.filterMap_cons, hd]
    · rw [(aggStep_dur_some st r d hd).2.2.2]
      simp only [List.filterMap_cons, hd]
      rcases hm : listMaxO (l.filterMap (fun r => r.request_duration)) with _ | m <;>
        rcases hst : st.max_dur with _ | m0 <;>
          simp [listMaxO, mergeMax, sqlMaxAcc, hm, hst, max_assoc]

theorem get?_some_lt {α : Type} (l : List α) (n : Nat) (a : α)
    (h : l.get? n = some a) : n < l.length := by
  by_contra hn
  rw [List.get?_eq_none.mpr (by omega)] at h
  cases h

/-- C6 (amended): the per-service analytics row counts every window row in
`total_requests` (rows with NULL duration included), computes the duration
aggregates over exactly the non-NULL durations, and over an empty window
returns `COUNT(*) = 0` with NULL (not zero) `SUM`-based success/failure
counters and NULL duration aggregates rather than failing; the
three-record example (two successes with durations 100 and 300, one failure
with NULL duration) yields totals 3/2/1 and avg 200, min 100, max 300. -/
theorem service_analytics_window_aggregates :
    (∀ (rows : List OperationalRow) (sid : String) (since : Int),
      get_service_analytics rows sid since =
        { total_requests := (rows.filter (inWindow sid since)).length
          successful_requests :=
            if (rows.filter (inWindow sid since)).isEmpty then none
            else some ((((rows.filter (inWindow sid since)).filter (fun r => r.success)).length : Int))
          failed_requests :=
            if (rows.filter (inWindow sid since)).isEmpty then none
            else some ((((rows.filter (inWindow sid since)).filter (fun r => !r.success)).length : Int))
          avg_duration :=
            if ((rows.filter (inWindow sid since)).filterMap (fun r => r.request_duration)).isEmpty
            then none
            else some
              ((((rows.filter (inWindow sid since)).filterMap (fun r => r.request_duration)).sum : ℚ) /
                (((rows.filter (inWindow sid since)).filterMap (fun r => r.request_duration)).length : ℚ))
          min_duration :=
            listMinO ((rows.filter (inWindow sid since)).filterMap (fun r => r.request_duration))
          max_duration :=
            listMaxO ((rows.filter (inWindow sid since)).filterMap (fun r => r.request_duration))
          avg_request_size :=
            if (rows.filter (inWindow sid since)).isEmpty then none
            else some
              ((((rows.filter (inWindow sid since)).map (fun r => r.request_size)).sum : ℚ) /
                ((rows.filter (inWindow sid since)).length : ℚ))
          avg_response_size :=
            if (rows.filter (inWindow sid since)).isEmpty then none
            else some
              ((((rows.filter (inWindow sid since)).map (fun r => r.response_size)).sum : ℚ) /
                ((rows.filter (inWindow sid since)).length : ℚ)) }) ∧
    get_service_analytics [] "S" 0 =
      { total_requests := 0, successful_requests := none, failed_requests := none,
        avg_duration := none, min_duration := none, max_duration := none,
        avg_request_size := none, avg_response_size := none } ∧
    get_service_analytics
        [⟨1, "S", "C", "Unknown", some 5, some 105, 10, 20, true, none, some 100⟩,
         ⟨2, "S", "C", "Unknown", some 6, some 306, 10, 20, true, none, some 300⟩,
         ⟨3, "S", "C", "Unknown", some 7, none, 10, 20, false, some "fault", none⟩] "S" 0 =
      { total_requests := 3, successful_requests := some 2, failed_requests := some 1,
        avg_duration := some 200, min_duration := some 100, max_duration := some 300,
        avg_request_size := some 10, avg_response_size := some 20 } := by
  refine ⟨?_, by rfl, ?_⟩
  · intro rows sid since
    unfold get_service_analytics finalizeAgg
    rw [foldl_agg_cnt, foldl_agg_sum_succ, foldl_agg_sum_fail, foldl_agg_sum_dur,
      foldl_agg_cnt_dur, foldl_agg_min_dur, foldl_agg_max_dur, foldl_agg_sum_qsize,
      foldl_agg_sum_psize]
    by_cases hw : (rows.filter (inWindow sid since)).isEmpty <;>
      by_cases hd : ((rows.filter (inWindow sid since)).filterMap
          (fun r => r.request_duration)).isEmpty <;>
        simp [aggInit, mergeMin, mergeMax, hw, hd] <;>
          simp [List.map_filterMap, Option.map_eq_bind, Function.comp_def]
  · have h : (List.filter (inWindow "S" 0)
        [⟨1, "S", "C", "Unknown", some 5, some 105, 10, 20, true, none, some 100⟩,
         ⟨2, "S", "C", "Unknown", some 6, some 306, 10, 20, true, none, some 300⟩,
         ⟨3, "S", "C", "Unknown", some 7, none, 10, 20, false, some "fault", none⟩]).foldl
          aggStep aggInit =
        ⟨3, some 2, some 1, some 400, 2, some 100, some 300, some 30, some 60⟩ := by decide
    unfold get_service_analytics
    rw [h]
    unfold finalizeAgg
    norm_num

/-- Counterexample to C6 as stated: over an empty window the code's
success/failure counters are SQL NULL, not the claimed zero counts. -/
theorem empty_window_success_count_is_null :
    (get_service_analytics [] "S" 0).successful_requests = none ∧
    (get_service_analytics [] "S" 0).successful_requests ≠ some 0 := by
  decide

/-- C7 (amended): the compact-identifier extraction the builders perform
succeeds exactly when the string has at least three slash-separated
segments (it reads segments 1 and 2); with fewer segments the indexing
raises an untyped `IndexError` (modelled `none`), there is no typed
`MalformedIdentifier` failure in the code. The extraction is a pure
function. -/
theorem parse_compact_requires_three_segments :
    ∀ s : String, (parseCompactClassCode s).isSome ↔ 3 ≤ (pySplit s '/').length := by
  intro s
  unfold parseCompactClassCode
  rcases h1 : (pySplit s '/').get? 1 with _ | p1 <;>
    rcases h2 : (pySplit s '/').get? 2 with _ | p2 <;> simp
  · have := List.get?_eq_none.mp h2
    omega
  · have k1 := List.get?_eq_none.mp h1
    have k2 := get?_some_lt _ _ _ h2
    omega
  · have := List.get?_eq_none.mp h2
    omega
  · have := get?_some_lt _ _ _ h2
    omega

/-- Counterexample to C7 as stated: `"A/B"` has two slash-separated
segments, yet the extraction fails (the source indexes segment 2, which
does not exist). -/
theorem two_segment_identifier_rejected :
    (pySplit "A/B" '/').length = 2 ∧ parseCompactClassCode "A/B" = none := by
  decide

theorem client_filter_xml_isSome (cfg : MetricsConfig) (filt : Option String) :
    (client_filter_xml cfg filt).isSome ↔
      (∀ cf, filt = some cf → cf ≠ "" → (parseCompactClassCode cf).isSome) := by
  cases filt with
  | none => simp [client_filter_xml]
  | some cf =>
    by_cases hcf : cf = ""
    · simp [client_filter_xml, hcf]
    · rcases hp : parseCompactClassCode cf with _ | pc <;>
        simp [client_filter_xml, hcf, hp]

/-- C8 (amended): each builder is a deterministic function of its declared
inputs and of the clock reading interpolated as the `<xrd:id>` correlation
id; two invocations with equal inputs produce documents that agree outside
the correlation id (common prefix and suffix), and a build fails exactly on
an identifier with fewer than three slash segments — the claimed purity
fails only because the correlation id is read from the clock. -/
theorem request_builders_deterministic_given_clock :
    (∀ (cfg : MetricsConfig) (from_ts to_ts : Int) (filt : Option String)
        (now1 now2 d1 d2 : String),
      build_operational_data_request cfg from_ts to_ts filt now1 = some d1 →
      build_operational_data_request cfg from_ts to_ts filt now2 = some d2 →
      ∃ p s, d1 = p ++ now1 ++ s ∧ d2 = p ++ now2 ++ s) ∧
    (∀ (cfg : MetricsConfig) (sid : Option String) (now1 now2 d1 d2 : String),
      build_health_data_request cfg sid now1 = some d1 →
      build_health_data_request cfg sid now2 = some d2 →
      ∃ p s, d1 = p ++ now1 ++ s ∧ d2 = p ++ now2 ++ s) ∧
    (∀ (cfg : MetricsConfig) (from_ts to_ts : Int) (filt : Option String) (now : String),
      (build_operational_data_request cfg from_ts to_ts filt now).isSome ↔
        ((parseCompactClassCode cfg.client_id).isSome ∧
         ∀ cf, filt = some cf → cf ≠ "" → (parseCompactClassCode cf).isSome)) ∧
    (∀ (cfg : MetricsConfig) (sid : Option String) (now : String),
      (build_health_data_request cfg sid now).isSome ↔
        (parseCompactClassCode cfg.client_id).isSome) := by
  refine ⟨?_, ?_, ?_, ?_⟩
  · intro cfg from_ts to_ts filt now1 now2 d1 d2 h1 h2
    unfold build_operational_data_request at h1 h2
    rcases hf : client_filter_xml cfg filt with _ | fxml <;>
      rcases hc : parseCompactClassCode cfg.client_id with _ | ⟨cls, code⟩ <;>
        rw [hf, hc] at h1 h2 <;> simp only [Option.some.injEq, reduceCtorEq] at h1 h2
    exact ⟨_, _, h1.symm, h2.symm⟩
  · intro cfg sid now1 now2 d1 d2 h1 h2
    unfold build_health_data_request at h1 h2
    rcases hc : parseCompactClassCode cfg.client_id with _ | ⟨cls, code⟩ <;>
      rw [hc] at h1 h2 <;> simp only [Option.some.injEq, reduceCtorEq] at h1 h2
    exact ⟨_, _, h1.symm, h2.symm⟩
  · intro cfg from_ts to_ts filt now
    have hbuild : (build_operational_data_request cfg from_ts to_ts filt now).isSome ↔
        ((client_filter_xml cfg filt).isSome ∧ (parseCompactClassCode cfg.client_id).isSome) := by
      unfold build_operational_data_request
      rcases hf : client_filter_xml cfg filt with _ | fxml <;>
        rcases hc : parseCompactClassCode cfg.client_id with _ | ⟨cls, code⟩ <;> simp
    rw [hbuild, client_filter_xml_isSome, and_comm]
  · intro cfg sid now
    unfold build_health_data_request
    rcases hc : parseCompactClassCode cfg.client_id with _ | ⟨cls, code⟩ <;> simp

/-- Witness for C8: the two parts of the concrete operational request built
at clock readings "A" and "B" share a prefix and suffix around the
correlation id. -/
theorem request_builders_deterministic_given_clock_witness :
    ∃ p s,
      ((build_operational_data_request ⟨"DEV/GOV/1234", none⟩ 0 0 none "A").getD "") =
        p ++ "A" ++ s ∧
      ((build_operational_data_request ⟨"DEV/GOV/1234", none⟩ 0 0 none "B").getD "") =
        p ++ "B" ++ s :=
  request_builders_deterministic_given_clock.1 ⟨"DEV/GOV/1234", none⟩ 0 0 none "A" "B"
    ((build_operational_data_request ⟨"DEV/GOV/1234", none⟩ 0 0 none "A").getD "")
    ((build_operational_data_request ⟨"DEV/GOV/1234", none⟩ 0 0 none "B").getD "")
    (by rfl) (by rfl)

/-- Counterexample to C8 as stated: equal declared inputs but two different
clock readings (the source interpolates `datetime.now()` into the document)
produce different request documents, so the builder is not a pure function
of its declared inputs. -/
theorem builder_output_depends_on_clock :
    build_operational_data_request ⟨"DEV/GOV/1234", none⟩ 0 0 none "20240101000000" ≠
      build_operational_data_request ⟨"DEV/GOV/1234", none⟩ 0 0 none "20240101000001" := by
  decide

/-- C9: the value the health parser stores in a service's statistics under
`avgDuration` — persisted as the snapshot's `avg_duration` — is read from
the wire element `requestMinDuration` (the period's minimum duration, not an
average), and defaults to 0.0 when the statistics block (or that element)
is absent. -/
theorem health_avg_duration_from_request_min_duration :
    ∀ e : ServiceEventElem,
      (store_health_service (parse_service_event e)).avg_duration =
        ((e.lastPeriodStatistics.bind (fun s => s.requestMinDuration)).getD 0) := by
  intro e
  rcases hs : e.lastPeriodStatistics with _ | stats
  · simp [store_health_service, parse_service_event, hs]
  · rcases hm : stats.requestMinDuration with _ | q <;>
      simp [store_health_service, parse_service_event, hs, hm]
